import Mathlib

/-!
Verification of the amethyst renderer skybox pass
(`src/amethyst_renderer/src/pass/sky/mod.rs`).

The pass logic (`DrawSkyBox::compile`, `DrawSkyBox::apply`, `load_cubemap`,
`load_texture`, `SKYBOX_VERTICES`) is embedded shallowly. External
collaborators that live outside the given sources (the asset store, the
`Effect` pipeline object, `Mesh`, the `get_camera` scene-query helper, the
`image` crate and the filesystem, `nalgebra`'s `try_inverse`) are modelled as
abstract parameters or from the specification's interface contracts; each
such definition says so in its doc comment.

Machine floats appearing in the source (the cube vertex list, the matrices)
are modelled over `ℚ`; every literal involved is `±1.0`, hence exact.
-/

/-- Four-by-four matrix over the rationals, standing in for `nalgebra::Matrix4<f32>`. -/
abbrev Mat4 := Matrix (Fin 4) (Fin 4) ℚ

/-- Modelled from the spec: `nalgebra`'s `Matrix4::try_inverse` (an external
math-library contract, §1 of the spec): returns the inverse when the matrix
is invertible and nothing when it is singular. -/
def tryInverse (m : Mat4) : Option Mat4 :=
  if m.det = 0 then none else some (m.det⁻¹ • m.adjugate)

/-- The `VertexArgs` uniform block of the sky pass: projection and view
matrices (mod.rs lines 27-32). -/
structure VertexArgs where
  proj : Mat4
  view : Mat4
deriving DecidableEq

/-- Source `Camera` as the pass reads it: only its projection matrix `cam.proj`
is consumed (mod.rs line 123). -/
structure Camera where
  proj : Mat4
deriving DecidableEq

/-- The `SkyBox` component: a handle to a cubemapped texture
(mod.rs lines 35-38). Handles are opaque; we model them as naturals. -/
structure SkyBox where
  texture : ℕ
deriving DecidableEq

/-- Modelled from the spec: a loaded `Texture` as the pass consumes it —
the asset store's resolved resource exposing `view()` and `sampler()`
(spec §3, §6). Both are opaque GPU objects, modelled as naturals. -/
structure Texture where
  view : ℕ
  sampler : ℕ
deriving DecidableEq

/-- Modelled from the spec: the pass-owned `Mesh` (spec §3): GPU-resident
geometry exposing `buffer(attributes)` — which may be unavailable — and
`slice()`. We record the result of `buffer(PosOnly::ATTRIBUTES)`, the only
attribute set the sky pass ever requests. -/
structure Mesh where
  buffer : Option ℕ
  slice : ℕ
deriving DecidableEq

/-- The transient per-draw attachment lists of the pipeline object
(spec §3: vertex buffers, textures, samplers pushed per draw). -/
structure EffectData where
  vertex_bufs : List ℕ
  textures : List ℕ
  samplers : List ℕ
deriving DecidableEq

/-- The compiled pipeline (`Effect`) object as the sky pass mutates it:
its per-draw attachment state `data`. -/
structure Effect where
  data : EffectData
deriving DecidableEq

/-- Modelled from the spec: `Effect::clear` (repo code outside the given
sources): resets the transient per-draw attachment lists to empty
(spec §3: "attachments pushed, then cleared"; §5: "cleared after every
draw"). -/
def Effect.clear (_e : Effect) : Effect :=
  { data := { vertex_bufs := [], textures := [], samplers := [] } }

/-- The panics (`unwrap`s) reachable from the embedded code. -/
inductive Panic where
  /-- mod.rs line 124: `transform.0.try_inverse().unwrap()`. -/
  | tryInverseUnwrap
  /-- mod.rs line 139: `self.mesh.as_ref().unwrap()`. -/
  | meshUnwrap
  /-- mod.rs lines 160/164: `texture.unwrap()`. -/
  | textureUnwrap
  /-- mod.rs line 204: `File::open(path.into()).unwrap()`. -/
  | fileOpenUnwrap
  /-- mod.rs line 217: `load_from_memory(..).map(..).map(..).unwrap()`. -/
  | imageDecodeUnwrap
deriving DecidableEq

/-- Observable GPU-side actions issued by `apply`:
`effect.update_constant_buffer("VertexArgs", ..)` and
`effect.draw(mesh.slice(), encoder)`.  A draw records the attachment
state of the effect at the moment it is issued. -/
inductive Event where
  | updateConstantBuffer (args : VertexArgs)
  | draw (slice : ℕ) (data : EffectData)
deriving DecidableEq

/-- The vertex-args computation of `DrawSkyBox::apply` (mod.rs lines
119-136): from the resolved camera (the result of `get_camera`, a
`(Camera, GlobalTransform)` pair whose transform we keep as its matrix),
build `VertexArgs { proj = cam.proj, view = inverse(transform) }`, or
identity/identity when no camera resolved.  The `unwrap` on the inverse is
a panic. -/
def computeVertexArgs (cameraResolved : Option (Camera × Mat4)) :
    Except Panic VertexArgs :=
  match cameraResolved with
  | some (cam, transform) =>
    match tryInverse transform with
    | some view => .ok { proj := cam.proj, view := view }
    | none => .error .tryInverseUnwrap
  | none => .ok { proj := (1 : Mat4), view := (1 : Mat4) }

/-- The per-entity loop of `DrawSkyBox::apply` (mod.rs lines 138-169):
for each `SkyBox` component, unwrap the pass mesh, fetch its vertex
buffer (clearing the effect and returning early when unavailable), push
the buffer, upload `VertexArgs`, resolve the entity's texture with
fallback to the material-defaults albedo handle (unwrapping the result),
push view and sampler, draw, and clear the effect before the next entity.
The asset store (`tex_storage.get`) is abstracted as the function
`ts : handle → Option Texture`. -/
def applyLoop (mesh : Option Mesh) (va : VertexArgs) (ts : ℕ → Option Texture)
    (defaultAlbedo : ℕ) :
    List SkyBox → Effect → List Event → Except Panic (Effect × List Event)
  | [], eff, evs => .ok (eff, evs)
  | sky :: rest, eff, evs =>
    match mesh with
    | none => .error .meshUnwrap
    | some m =>
      match m.buffer with
      | none => .ok (eff.clear, evs)
      | some vbuf =>
        let eff1 : Effect :=
          { data := { eff.data with vertex_bufs := eff.data.vertex_bufs ++ [vbuf] } }
        let evs1 := evs ++ [Event.updateConstantBuffer va]
        match (ts sky.texture).orElse (fun _ => ts defaultAlbedo) with
        | none => .error .textureUnwrap
        | some tex =>
          let eff2 : Effect :=
            { data := { eff1.data with
                          textures := eff1.data.textures ++ [tex.view],
                          samplers := eff1.data.samplers ++ [tex.sampler] } }
          let evs2 := evs1 ++ [Event.draw m.slice eff2.data]
          applyLoop mesh va ts defaultAlbedo rest eff2.clear evs2

/-- The `DrawSkyBox` pass state: the lazily built cube mesh
(mod.rs lines 62-64). -/
structure DrawSkyBox where
  mesh : Option Mesh
deriving DecidableEq

/-- Source `DrawSkyBox::new` (mod.rs lines 68-70). -/
def DrawSkyBox.new : DrawSkyBox := { mesh := none }

/-- Source `DrawSkyBox::apply` (mod.rs lines 105-170): compute the vertex args
from the resolved camera, then run the per-entity loop.  `get_camera`
lives outside the given sources; its result is taken as the parameter
`cameraResolved`.  A normal return is `.ok` with the final effect state
and the list of issued GPU actions; a panic is `.error`. -/
def DrawSkyBox.apply (pass : DrawSkyBox) (cameraResolved : Option (Camera × Mat4))
    (ts : ℕ → Option Texture) (defaultAlbedo : ℕ) (skyboxes : List SkyBox)
    (eff : Effect) : Except Panic (Effect × List Event) :=
  match computeVertexArgs cameraResolved with
  | .error p => .error p
  | .ok va => applyLoop pass.mesh va ts defaultAlbedo skyboxes eff []

/-- One vertex of the sky mesh: position only (mod.rs lines 44-46). -/
structure PosOnly where
  position : ℚ × ℚ × ℚ
deriving DecidableEq

/-- Source `SKYBOX_VERTICES` (mod.rs lines 220-257): the fixed 36-entry
unit-cube position list. -/
def SKYBOX_VERTICES : List (ℚ × ℚ × ℚ) :=
  [ (-1, 1, -1), (-1, -1, -1), (1, -1, -1),
    (1, -1, -1), (1, 1, -1), (-1, 1, -1),
    (-1, -1, 1), (-1, -1, -1), (-1, 1, -1),
    (-1, 1, -1), (-1, 1, 1), (-1, -1, 1),
    (1, -1, -1), (1, -1, 1), (1, 1, 1),
    (1, 1, 1), (1, 1, -1), (1, -1, -1),
    (-1, -1, 1), (-1, 1, 1), (1, 1, 1),
    (1, 1, 1), (1, -1, 1), (-1, -1, 1),
    (-1, 1, -1), (1, 1, -1), (1, 1, 1),
    (1, 1, 1), (-1, 1, 1), (-1, 1, -1),
    (-1, -1, -1), (-1, -1, 1), (1, -1, -1),
    (1, -1, -1), (-1, -1, 1), (1, -1, 1) ]

/-- The vertex data built by `DrawSkyBox::compile` (mod.rs lines 86-90):
`SKYBOX_VERTICES.iter().map(|v| PosOnly { position: v.clone() }).collect()`.
Building the GPU mesh and pipeline from it involves the factory (outside
the given sources); the data handed to `Mesh::build` is what we model. -/
def DrawSkyBox.compileVertexData (_pass : DrawSkyBox) : List PosOnly :=
  SKYBOX_VERTICES.map (fun v => { position := v })

/-- A decoded image as `load_texture` produces it: the 8-bit RGBA pixel
buffer (`ImageData { rgba }`, opaque here). -/
structure ImageData where
  rgba : ℕ
deriving DecidableEq

/-- Modelled from the spec: the `image` crate's `DynamicImage` as
`load_texture` consumes it — either already 8-bit RGBA, or some other
format carrying the RGBA conversion `to_rgba()` would produce. -/
inductive DynamicImage where
  | imageRgba8 (im : ℕ)
  | otherFormat (rgbaConversion : ℕ)
deriving DecidableEq

/-- Source `load_texture` (mod.rs lines 197-218): open the file (panicking when
that fails), decode the bytes (panicking when that fails), and extract
the RGBA buffer, converting when the decoded image is not already RGBA8.
The filesystem (`fs`: path to file contents) and the decoder
(`load_from_memory`) are external and abstracted as parameters. -/
def load_texture (fs : ℕ → Option (List ℕ))
    (load_from_memory : List ℕ → Option DynamicImage) (path : ℕ) :
    Except Panic ImageData :=
  match fs path with
  | none => .error .fileOpenUnwrap
  | some data =>
    match load_from_memory data with
    | none => .error .imageDecodeUnwrap
    | some img =>
      match img with
      | .imageRgba8 im => .ok { rgba := im }
      | .otherFormat r => .ok { rgba := r }

/-- Source `TextureMetadata` as `load_cubemap` builds it (mod.rs line 191):
sRGB color space, with a kind attached by `with_kind`. -/
inductive TexKind where
  | cube (size : ℕ)
deriving DecidableEq

/-- Modelled from the spec: the texture metadata record — colour space
plus optional kind (spec §4.4: "sRGB color space, cube layout of given
edge size"). -/
structure TextureMetadata where
  colorSpaceSrgb : Bool
  kind : Option TexKind
deriving DecidableEq

/-- Source `TextureMetadata::srgb()`: sRGB colour space, no kind yet. -/
def TextureMetadata.srgb : TextureMetadata :=
  { colorSpaceSrgb := true, kind := none }

/-- Source `TextureMetadata::with_kind`. -/
def TextureMetadata.with_kind (m : TextureMetadata) (k : TexKind) :
    TextureMetadata :=
  { m with kind := some k }

/-- Source `TextureData::CubeImage([ImageData; 6], meta)` (mod.rs line 193). -/
inductive TextureData where
  | cubeImage (data : Fin 6 → ImageData) (meta : TextureMetadata)
deriving DecidableEq

/-- Source `load_cubemap` (mod.rs lines 174-195): load the six named images in
order, build sRGB cube metadata of the given edge size, package them as
one `TextureData::CubeImage`, and submit it to the asset store in a
single `loader.load_from_data` call, returning the handle that call
yields.  `loader.load_from_data` is repo code outside the given sources;
per spec §6 it returns a handle immediately, so it is abstracted as the
function `loader : TextureData → handle`.  Alongside the `Except` result
we return the list of requests actually submitted to the store, so that
"no partial cubemap is ever submitted" is observable on the panic path. -/
def load_cubemap (fs : ℕ → Option (List ℕ))
    (load_from_memory : List ℕ → Option DynamicImage)
    (loader : TextureData → ℕ) (names : Fin 6 → ℕ) (size : ℕ) :
    Except Panic ℕ × List TextureData :=
  match load_texture fs load_from_memory (names 0) with
  | .error p => (.error p, [])
  | .ok d0 =>
    match load_texture fs load_from_memory (names 1) with
    | .error p => (.error p, [])
    | .ok d1 =>
      match load_texture fs load_from_memory (names 2) with
      | .error p => (.error p, [])
      | .ok d2 =>
        match load_texture fs load_from_memory (names 3) with
        | .error p => (.error p, [])
        | .ok d3 =>
          match load_texture fs load_from_memory (names 4) with
          | .error p => (.error p, [])
          | .ok d4 =>
            match load_texture fs load_from_memory (names 5) with
            | .error p => (.error p, [])
            | .ok d5 =>
              let meta := TextureMetadata.srgb.with_kind (TexKind.cube size)
              let texture_data :=
                TextureData.cubeImage ![d0, d1, d2, d3, d4, d5] meta
              (.ok (loader texture_data), [texture_data])

/-! Concrete instances used by the witness theorems. -/

/-- An example mesh whose vertex buffer is available. -/
def exMesh : Mesh := { buffer := some 10, slice := 3 }

/-- An example mesh whose vertex buffer is unavailable. -/
def exMeshNoBuf : Mesh := { buffer := none, slice := 3 }

/-- An example resolved texture. -/
def exTexture : Texture := { view := 20, sampler := 21 }

/-- An example asset store resolving only handle `0`. -/
def exStore : ℕ → Option Texture :=
  fun h => if h = 0 then some exTexture else none

/-- An example asset store resolving only the default-albedo handle `7`. -/
def exStoreDefaultOnly : ℕ → Option Texture :=
  fun h => if h = 7 then some exTexture else none

/-- An example effect with stale attachments pushed. -/
def exDirtyEffect : Effect := { data := { vertex_bufs := [5], textures := [6], samplers := [7] } }

/-- An example cleared effect. -/
def exClearEffect : Effect := { data := { vertex_bufs := [], textures := [], samplers := [] } }

/-- An example filesystem where every path opens to an empty byte list. -/
def exFs : ℕ → Option (List ℕ) := fun _ => some []

/-- An example decoder decoding everything to an RGBA8 image. -/
def exDecode : List ℕ → Option DynamicImage := fun _ => some (DynamicImage.imageRgba8 9)

/-- An example loader handing out handle `42` for every request. -/
def exLoader : TextureData → ℕ := fun _ => 42

/-- An example six-name array. -/
def exNames : Fin 6 → ℕ := fun i => i.val

/-! Shared helper lemmas. -/

/-- Inverting the identity matrix succeeds and yields the identity. -/
theorem tryInverse_one : tryInverse (1 : Mat4) = some 1 := by
  unfold tryInverse
  simp [Matrix.det_one, Matrix.adjugate_one]

/-- Whenever the per-entity loop returns normally, the final effect either
has empty attachment lists or is the untouched input effect (the latter only
when the loop body never ran). -/
theorem applyLoop_ok_clears (mesh : Option Mesh) (va : VertexArgs)
    (ts : ℕ → Option Texture) (d : ℕ) :
    ∀ (skies : List SkyBox) (eff : Effect) (evs : List Event)
      (eff' : Effect) (evs' : List Event),
      applyLoop mesh va ts d skies eff evs = .ok (eff', evs') →
      eff'.data = { vertex_bufs := [], textures := [], samplers := [] } ∨ eff' = eff := by
  intro skies
  induction skies with
  | nil =>
    intro eff evs eff' evs' h
    simp only [applyLoop, Except.ok.injEq, Prod.mk.injEq] at h
    exact Or.inr h.1.symm
  | cons sky rest ih =>
    intro eff evs eff' evs' h
    simp only [applyLoop] at h
    split at h
    · exact Except.noConfusion h
    · split at h
      · injection h with h1
        injection h1 with h2 h3
        subst h2
        exact Or.inl rfl
      · split at h
        · exact Except.noConfusion h
        · rcases ih _ _ _ _ h with h' | h'
          · exact Or.inl h'
          · subst h'
            exact Or.inl rfl

/-- C1: for every invocation of the skybox pass's apply and every entity
iterated in it, after that entity's draw step completes — whether the draw
was issued or the iteration aborted early because the vertex buffer was
unavailable — the effect's transient per-draw attachment lists (vertex
buffers, textures, samplers) are empty: a normal return never leaves stale
attachments pushed (first conjunct), and a completed draw advances to the
remaining entities with the attachment lists cleared (second conjunct). -/
theorem skybox_apply_clears_attachments :
    (∀ (pass : DrawSkyBox) (cam : Option (Camera × Mat4)) (ts : ℕ → Option Texture)
       (d : ℕ) (sky : SkyBox) (rest : List SkyBox) (eff eff' : Effect) (evs' : List Event),
       pass.apply cam ts d (sky :: rest) eff = .ok (eff', evs') →
       eff'.data = { vertex_bufs := [], textures := [], samplers := [] })
    ∧ (∀ (m : Mesh) (vbuf : ℕ) (va : VertexArgs) (ts : ℕ → Option Texture) (d : ℕ)
         (sky : SkyBox) (rest : List SkyBox) (eff : Effect) (evs : List Event) (tex : Texture),
         m.buffer = some vbuf →
         (ts sky.texture).orElse (fun _ => ts d) = some tex →
         ∃ evs₂, applyLoop (some m) va ts d (sky :: rest) eff evs =
           applyLoop (some m) va ts d rest
             { data := { vertex_bufs := [], textures := [], samplers := [] } } evs₂) := by
  constructor
  · intro pass cam ts d sky rest eff eff' evs' h
    unfold DrawSkyBox.apply at h
    split at h
    · exact Except.noConfusion h
    · simp only [applyLoop] at h
      split at h
      · exact Except.noConfusion h
      · split at h
        · injection h with h1
          injection h1 with h2 h3
          subst h2
          rfl
        · split at h
          · exact Except.noConfusion h
          · rcases applyLoop_ok_clears _ _ _ _ _ _ _ _ _ h with h' | h'
            · exact h'
            · subst h'
              rfl
  · intro m vbuf va ts d sky rest eff evs tex hb htex
    refine ⟨evs ++ [Event.updateConstantBuffer va] ++
      [Event.draw m.slice
        (EffectData.mk (eff.data.vertex_bufs ++ [vbuf]) (eff.data.textures ++ [tex.view])
          (eff.data.samplers ++ [tex.sampler]))], ?_⟩
    simp only [applyLoop, hb, htex, Effect.clear]

/-- Witness for C1 at a concrete run: one skybox entity, dirty incoming
effect, available buffer and texture. -/
theorem skybox_apply_clears_attachments_witness :
    exClearEffect.data = { vertex_bufs := [], textures := [], samplers := [] }
    ∧ ∃ evs₂, applyLoop (some exMesh) { proj := 1, view := 1 } exStore 7
        [SkyBox.mk 0] exDirtyEffect [] =
        applyLoop (some exMesh) { proj := 1, view := 1 } exStore 7 []
          { data := { vertex_bufs := [], textures := [], samplers := [] } } evs₂ :=
  ⟨skybox_apply_clears_attachments.1 (DrawSkyBox.mk (some exMesh)) none exStore 7
     (SkyBox.mk 0) [] exDirtyEffect exClearEffect
     [Event.updateConstantBuffer { proj := 1, view := 1 },
      Event.draw 3 { vertex_bufs := [5, 10], textures := [6, 20], samplers := [7, 21] }]
     rfl,
   skybox_apply_clears_attachments.2 exMesh 10 { proj := 1, view := 1 } exStore 7
     (SkyBox.mk 0) [] exDirtyEffect [] exTexture rfl rfl⟩

/-- C2: when the mesh's vertex buffer is unavailable, apply clears the
effect's per-draw state and returns normally at the first entity: no
uniform upload, texture bind, or draw is issued (empty event list), no
remaining entities are processed, and no error is surfaced (`.ok`). -/
theorem skybox_apply_buffer_unavailable
    (pass : DrawSkyBox) (m : Mesh) (cam : Option (Camera × Mat4)) (va : VertexArgs)
    (ts : ℕ → Option Texture) (d : ℕ) (sky : SkyBox) (rest : List SkyBox) (eff : Effect)
    (hva : computeVertexArgs cam = .ok va)
    (hm : pass.mesh = some m) (hb : m.buffer = none) :
    pass.apply cam ts d (sky :: rest) eff =
      .ok ({ data := { vertex_bufs := [], textures := [], samplers := [] } }, []) := by
  simp only [DrawSkyBox.apply, hva, applyLoop, hm, hb, Effect.clear]

/-- Witness for C2: a mesh whose buffer is absent, no camera. -/
theorem skybox_apply_buffer_unavailable_witness :
    (DrawSkyBox.mk (some exMeshNoBuf)).apply none exStore 7 [SkyBox.mk 0] exDirtyEffect =
      .ok ({ data := { vertex_bufs := [], textures := [], samplers := [] } }, []) :=
  skybox_apply_buffer_unavailable (DrawSkyBox.mk (some exMeshNoBuf)) exMeshNoBuf none
    { proj := 1, view := 1 } exStore 7 (SkyBox.mk 0) [] exDirtyEffect rfl rfl rfl

/-- C3: with no camera resolved, the `VertexArgs` block is
identity/identity, and skybox entities are still drawn with those
matrices rather than skipped: the first entity's upload and draw are
issued and the loop proceeds to the remaining entities. -/
theorem skybox_apply_no_camera_identity
    (pass : DrawSkyBox) (m : Mesh) (vbuf : ℕ) (ts : ℕ → Option Texture) (d : ℕ)
    (sky : SkyBox) (rest : List SkyBox) (tex : Texture)
    (hm : pass.mesh = some m) (hb : m.buffer = some vbuf)
    (htex : ts sky.texture = some tex) :
    computeVertexArgs none = .ok { proj := 1, view := 1 }
    ∧ pass.apply none ts d (sky :: rest)
        { data := { vertex_bufs := [], textures := [], samplers := [] } } =
      applyLoop (some m) { proj := 1, view := 1 } ts d rest
        { data := { vertex_bufs := [], textures := [], samplers := [] } }
        [Event.updateConstantBuffer { proj := 1, view := 1 },
         Event.draw m.slice
           { vertex_bufs := [vbuf], textures := [tex.view], samplers := [tex.sampler] }] := by
  refine ⟨rfl, ?_⟩
  simp only [DrawSkyBox.apply, computeVertexArgs, applyLoop, hm, hb, Option.orElse,
    htex, Effect.clear, List.nil_append, List.cons_append, List.append_nil]

/-- Witness for C3: one entity, available buffer and texture, no camera. -/
theorem skybox_apply_no_camera_identity_witness :
    computeVertexArgs none = .ok { proj := 1, view := 1 }
    ∧ (DrawSkyBox.mk (some exMesh)).apply none exStore 7 [SkyBox.mk 0]
        { data := { vertex_bufs := [], textures := [], samplers := [] } } =
      applyLoop (some exMesh) { proj := 1, view := 1 } exStore 7 []
        { data := { vertex_bufs := [], textures := [], samplers := [] } }
        [Event.updateConstantBuffer { proj := 1, view := 1 },
         Event.draw exMesh.slice
           { vertex_bufs := [10], textures := [exTexture.view],
             samplers := [exTexture.sampler] }] :=
  skybox_apply_no_camera_identity (DrawSkyBox.mk (some exMesh)) exMesh 10 exStore 7
    (SkyBox.mk 0) [] exTexture rfl rfl rfl

/-- C4: when an entity's texture handle resolves to nothing but the
material-defaults albedo handle resolves, the entity's draw is issued with
the default texture's view and sampler bound. -/
theorem skybox_apply_default_texture_fallback
    (m : Mesh) (vbuf : ℕ) (va : VertexArgs) (ts : ℕ → Option Texture) (d : ℕ)
    (sky : SkyBox) (rest : List SkyBox) (evs : List Event) (tex : Texture)
    (hb : m.buffer = some vbuf)
    (h1 : ts sky.texture = none) (h2 : ts d = some tex) :
    applyLoop (some m) va ts d (sky :: rest)
      { data := { vertex_bufs := [], textures := [], samplers := [] } } evs =
    applyLoop (some m) va ts d rest
      { data := { vertex_bufs := [], textures := [], samplers := [] } }
      (evs ++ [Event.updateConstantBuffer va,
               Event.draw m.slice (EffectData.mk [vbuf] [tex.view] [tex.sampler])]) := by
  simp only [applyLoop, hb, Option.orElse, h1, h2, Effect.clear, List.nil_append,
    List.cons_append, List.append_nil, List.append_assoc]

/-- Witness for C4: a store resolving only the default-albedo handle. -/
theorem skybox_apply_default_texture_fallback_witness :
    applyLoop (some exMesh) { proj := 1, view := 1 } exStoreDefaultOnly 7
      [SkyBox.mk 0]
      { data := { vertex_bufs := [], textures := [], samplers := [] } } [] =
    applyLoop (some exMesh) { proj := 1, view := 1 } exStoreDefaultOnly 7 []
      { data := { vertex_bufs := [], textures := [], samplers := [] } }
      ([] ++ [Event.updateConstantBuffer { proj := 1, view := 1 },
              Event.draw exMesh.slice
                (EffectData.mk [10] [exTexture.view] [exTexture.sampler])]) :=
  skybox_apply_default_texture_fallback exMesh 10 { proj := 1, view := 1 }
    exStoreDefaultOnly 7 (SkyBox.mk 0) [] [] exTexture rfl rfl rfl

/-- C5: every invocation of compile builds the mesh from the same fixed
36-vertex position list: the data is invocation-independent, has exactly
36 vertices (12 triangles), and is the authored `SKYBOX_VERTICES` list in
order. -/
theorem skybox_compile_vertex_data_fixed (p q : DrawSkyBox) :
    p.compileVertexData = q.compileVertexData
    ∧ p.compileVertexData.length = 36
    ∧ p.compileVertexData = SKYBOX_VERTICES.map (fun v => { position := v }) :=
  ⟨rfl, rfl, rfl⟩

/-- C8: with a resolved camera whose world transform is the identity
matrix, the `VertexArgs` block has `view = I` (the inverse of the
identity) and `proj` equal to the camera's own projection, and apply
proceeds into the per-entity loop with exactly those args. -/
theorem skybox_apply_identity_transform (cam : Camera) (pass : DrawSkyBox)
    (ts : ℕ → Option Texture) (d : ℕ) (skies : List SkyBox) (eff : Effect) :
    computeVertexArgs (some (cam, (1 : Mat4))) = .ok { proj := cam.proj, view := 1 }
    ∧ pass.apply (some (cam, 1)) ts d skies eff =
        applyLoop pass.mesh { proj := cam.proj, view := 1 } ts d skies eff [] := by
  constructor
  · simp only [computeVertexArgs, tryInverse_one]
  · simp only [DrawSkyBox.apply, computeVertexArgs, tryInverse_one]

/-- C10: invoking apply before a successful compile (pass mesh absent)
panics on the mesh unwrap as soon as one `SkyBox` entity is iterated,
but completes normally with zero `SkyBox` entities, because the unwrap
sits inside the per-entity loop. -/
theorem skybox_apply_before_compile
    (pass : DrawSkyBox) (cam : Option (Camera × Mat4)) (va : VertexArgs)
    (ts : ℕ → Option Texture) (d : ℕ) (eff : Effect)
    (hva : computeVertexArgs cam = .ok va) (hm : pass.mesh = none) :
    pass.apply cam ts d [] eff = .ok (eff, [])
    ∧ ∀ (sky : SkyBox) (rest : List SkyBox),
        pass.apply cam ts d (sky :: rest) eff = .error .meshUnwrap := by
  constructor
  · simp only [DrawSkyBox.apply, hva, applyLoop]
  · intro sky rest
    simp only [DrawSkyBox.apply, hva, applyLoop, hm]

/-- Witness for C10: the freshly constructed pass, no camera. -/
theorem skybox_apply_before_compile_witness :
    DrawSkyBox.new.apply none exStore 7 [] exClearEffect = .ok (exClearEffect, [])
    ∧ DrawSkyBox.new.apply none exStore 7 [SkyBox.mk 0] exClearEffect =
        .error .meshUnwrap :=
  ⟨(skybox_apply_before_compile DrawSkyBox.new none { proj := 1, view := 1 }
      exStore 7 exClearEffect rfl rfl).1,
   (skybox_apply_before_compile DrawSkyBox.new none { proj := 1, view := 1 }
      exStore 7 exClearEffect rfl rfl).2 (SkyBox.mk 0) []⟩

/-- C9: if for some entity both texture lookups fail (entity handle and
default albedo handle both resolve to nothing), apply panics on the
texture unwrap; conversely, whenever the default albedo handle resolves,
the texture-unwrap panic is unreachable. -/
theorem skybox_texture_unwrap_panic :
    (∀ (m : Mesh) (vbuf : ℕ) (va : VertexArgs) (ts : ℕ → Option Texture) (d : ℕ)
       (sky : SkyBox) (rest : List SkyBox) (eff : Effect) (evs : List Event),
       m.buffer = some vbuf → ts sky.texture = none → ts d = none →
       applyLoop (some m) va ts d (sky :: rest) eff evs = .error .textureUnwrap)
    ∧ (∀ (mesh : Option Mesh) (va : VertexArgs) (ts : ℕ → Option Texture) (d : ℕ)
         (tex : Texture), ts d = some tex →
         ∀ (skies : List SkyBox) (eff : Effect) (evs : List Event),
           applyLoop mesh va ts d skies eff evs ≠ .error .textureUnwrap) := by
  constructor
  · intro m vbuf va ts d sky rest eff evs hb h1 h2
    simp only [applyLoop, hb, Option.orElse, h1, h2]
  · intro mesh va ts d tex hd skies
    induction skies with
    | nil =>
      intro eff evs h
      simp only [applyLoop] at h
      exact Except.noConfusion h
    | cons sky rest ih =>
      intro eff evs h
      cases mesh with
      | none => simp [applyLoop] at h
      | some m =>
        cases hb : m.buffer with
        | none =>
          simp only [applyLoop, hb] at h
          exact Except.noConfusion h
        | some vbuf =>
          cases hst : ts sky.texture with
          | some t =>
            simp only [applyLoop, hb, hst, Option.orElse] at h
            exact ih _ _ h
          | none =>
            simp only [applyLoop, hb, hst, Option.orElse, hd] at h
            exact ih _ _ h

/-- Witness for C9: a store resolving nothing panics; a store resolving
the default handle does not. -/
theorem skybox_texture_unwrap_panic_witness :
    applyLoop (some exMesh) { proj := 1, view := 1 } (fun _ => none) 7 [SkyBox.mk 0]
      exClearEffect [] = .error .textureUnwrap
    ∧ applyLoop (some exMesh) { proj := 1, view := 1 } exStoreDefaultOnly 7
        [SkyBox.mk 0] exClearEffect [] ≠ .error .textureUnwrap :=
  ⟨skybox_texture_unwrap_panic.1 exMesh 10 { proj := 1, view := 1 } (fun _ => none) 7
     (SkyBox.mk 0) [] exClearEffect [] rfl rfl rfl,
   skybox_texture_unwrap_panic.2 (some exMesh) { proj := 1, view := 1 }
     exStoreDefaultOnly 7 exTexture rfl [SkyBox.mk 0] exClearEffect []⟩

/-- C6: if any one of the six named source images fails to open or to
decode, the whole `load_cubemap` call aborts with a load error: no handle
is produced and nothing is submitted to the asset store. -/
theorem load_cubemap_aborts_on_failure
    (fs : ℕ → Option (List ℕ)) (lfm : List ℕ → Option DynamicImage)
    (loader : TextureData → ℕ) (names : Fin 6 → ℕ) (size : ℕ) (p : Panic)
    (h : load_texture fs lfm (names 0) = .error p
       ∨ load_texture fs lfm (names 1) = .error p
       ∨ load_texture fs lfm (names 2) = .error p
       ∨ load_texture fs lfm (names 3) = .error p
       ∨ load_texture fs lfm (names 4) = .error p
       ∨ load_texture fs lfm (names 5) = .error p) :
    (∃ q, (load_cubemap fs lfm loader names size).1 = .error q)
    ∧ (load_cubemap fs lfm loader names size).2 = [] := by
  rcases e0 : load_texture fs lfm (names 0) with p0 | d0
  · have hc : load_cubemap fs lfm loader names size = (.error p0, []) := by
      simp only [load_cubemap, e0]
    exact ⟨⟨p0, by rw [hc]⟩, by rw [hc]⟩
  · rcases e1 : load_texture fs lfm (names 1) with p1 | d1
    · have hc : load_cubemap fs lfm loader names size = (.error p1, []) := by
        simp only [load_cubemap, e0, e1]
      exact ⟨⟨p1, by rw [hc]⟩, by rw [hc]⟩
    · rcases e2 : load_texture fs lfm (names 2) with p2 | d2
      · have hc : load_cubemap fs lfm loader names size = (.error p2, []) := by
          simp only [load_cubemap, e0, e1, e2]
        exact ⟨⟨p2, by rw [hc]⟩, by rw [hc]⟩
      · rcases e3 : load_texture fs lfm (names 3) with p3 | d3
        · have hc : load_cubemap fs lfm loader names size = (.error p3, []) := by
            simp only [load_cubemap, e0, e1, e2, e3]
          exact ⟨⟨p3, by rw [hc]⟩, by rw [hc]⟩
        · rcases e4 : load_texture fs lfm (names 4) with p4 | d4
          · have hc : load_cubemap fs lfm loader names size = (.error p4, []) := by
              simp only [load_cubemap, e0, e1, e2, e3, e4]
            exact ⟨⟨p4, by rw [hc]⟩, by rw [hc]⟩
          · rcases e5 : load_texture fs lfm (names 5) with p5 | d5
            · have hc : load_cubemap fs lfm loader names size = (.error p5, []) := by
                simp only [load_cubemap, e0, e1, e2, e3, e4, e5]
              exact ⟨⟨p5, by rw [hc]⟩, by rw [hc]⟩
            · exfalso
              rcases h with h | h | h | h | h | h <;> simp_all

/-- Witness for C6: a filesystem on which every open fails. -/
theorem load_cubemap_aborts_on_failure_witness :
    (∃ q, (load_cubemap (fun _ => none) exDecode exLoader exNames 4).1 = .error q)
    ∧ (load_cubemap (fun _ => none) exDecode exLoader exNames 4).2 = [] :=
  load_cubemap_aborts_on_failure (fun _ => none) exDecode exLoader exNames 4
    Panic.fileOpenUnwrap (Or.inl rfl)

/-- C7: when all six images load and decode, `load_cubemap` packages the
six decoded RGBA images as one `CubeImage` request with sRGB metadata of
cube layout and the given edge size, submits exactly that one request to
the asset store, and returns the handle that submission yields. -/
theorem load_cubemap_success
    (fs : ℕ → Option (List ℕ)) (lfm : List ℕ → Option DynamicImage)
    (loader : TextureData → ℕ) (names : Fin 6 → ℕ) (size : ℕ)
    (d0 d1 d2 d3 d4 d5 : ImageData)
    (h0 : load_texture fs lfm (names 0) = .ok d0)
    (h1 : load_texture fs lfm (names 1) = .ok d1)
    (h2 : load_texture fs lfm (names 2) = .ok d2)
    (h3 : load_texture fs lfm (names 3) = .ok d3)
    (h4 : load_texture fs lfm (names 4) = .ok d4)
    (h5 : load_texture fs lfm (names 5) = .ok d5) :
    load_cubemap fs lfm loader names size =
      (.ok (loader (TextureData.cubeImage ![d0, d1, d2, d3, d4, d5]
          (TextureMetadata.srgb.with_kind (TexKind.cube size)))),
       [TextureData.cubeImage ![d0, d1, d2, d3, d4, d5]
          (TextureMetadata.srgb.with_kind (TexKind.cube size))]) := by
  simp only [load_cubemap, h0, h1, h2, h3, h4, h5]

/-- Witness for C7: every path opens, everything decodes to RGBA8. -/
theorem load_cubemap_success_witness :
    load_cubemap exFs exDecode exLoader exNames 4 =
      (.ok 42, [TextureData.cubeImage
          ![ImageData.mk 9, ImageData.mk 9, ImageData.mk 9,
            ImageData.mk 9, ImageData.mk 9, ImageData.mk 9]
          (TextureMetadata.srgb.with_kind (TexKind.cube 4))]) :=
  load_cubemap_success exFs exDecode exLoader exNames 4
    (ImageData.mk 9) (ImageData.mk 9) (ImageData.mk 9)
    (ImageData.mk 9) (ImageData.mk 9) (ImageData.mk 9)
    rfl rfl rfl rfl rfl rfl
